import Mathlib

/-!
Verification of the Youtube-clipper repository: a shallow embedding of its
two API routes (video search, video acquisition) and of the client-side
`processVideo` transcode pipeline, with theorems settling the specification
claims about them.

Source files embedded:
- `src/app/api/collect-videos/route.ts` — the `GET` search route and the
  page component holding `processVideo`;
- `src/unnamed/part_000` — the `POST` acquisition route (`/api/process-video`).
-/

namespace YoutubeClipper

/-- JavaScript falsiness of an optional string: `undefined`/`null` and the
empty string are falsy; every non-empty string is truthy. -/
def strFalsy : Option String → Bool
  | none => true
  | some s => s = ""

/-! ## Data model: the `YouTubeVideoItem` interface of `route.ts` -/

/-- `thumbnails.medium` of the `YouTubeVideoItem` interface. -/
structure MediumThumb where
  url : Option String
  width : Option Nat
  height : Option Nat
deriving DecidableEq, Repr

/-- `snippet` of the `YouTubeVideoItem` interface. -/
structure Snippet where
  title : Option String
  medium : Option MediumThumb
deriving DecidableEq, Repr

/-- `id` of the `YouTubeVideoItem` interface. -/
structure VideoIdBox where
  videoId : Option String
deriving DecidableEq, Repr

/-- The `YouTubeVideoItem` interface exported by `route.ts`: every field is
optional, as in the TypeScript declaration. -/
structure YouTubeVideoItem where
  id : Option VideoIdBox
  snippet : Option Snippet
deriving DecidableEq, Repr

/-- The optional-chained access `video.id?.videoId` used by `processVideo`. -/
def itemVideoId (v : YouTubeVideoItem) : Option String :=
  v.id.bind VideoIdBox.videoId

/-! ## The search route: `GET` of `src/app/api/collect-videos/route.ts` -/

/-- A response of the search route: either a JSON error body
(`{message}` or `{message, error}`) with a status, or a JSON array of
video items with a status. -/
inductive GetResponse where
  | failure (message : String) (error : Option String) (status : Nat)
  | success (videos : List YouTubeVideoItem) (status : Nat)
deriving DecidableEq, Repr

/-- `new URL(request.url).searchParams.get('q') || 'trending'`: an absent
`q` yields `null` and an empty `q` yields `""`, both falsy, so both fall
back to `"trending"`. -/
def searchQueryOf : Option String → String
  | none => "trending"
  | some s => if s = "" then "trending" else s

/-- The `GET` handler of the search route.  `apiKey` embeds
`process.env.YOUTUBE_API_KEY` (absent variable = `none`); `q` embeds the
`q` search parameter (absent = `none`); `upstream` embeds
`youtube.search.list` applied to the search query, returning either the
(possibly `undefined`) `response.data.items` or a thrown error message;
`shuffle` embeds the nondeterministic
`[...allVideos].sort(() => Math.random() - 0.5)`, whose result is some
permutation of its input (constrained to a permutation in the theorems
below). -/
def GET (apiKey : Option String) (q : Option String)
    (upstream : String → Except String (Option (List YouTubeVideoItem)))
    (shuffle : List YouTubeVideoItem → List YouTubeVideoItem) : GetResponse :=
  if strFalsy apiKey then
    .failure "YouTube API Key is not configured on the server." none 500
  else
    let searchQuery := searchQueryOf q
    match upstream searchQuery with
    | .ok items =>
        let allVideos := items.getD []
        let shuffled := shuffle allVideos
        let videos := shuffled.take 10
        .success videos 200
    | .error msg =>
        .failure "Error fetching videos from YouTube API." (some msg) 500

/-! ## The acquisition route: `POST` of `src/unnamed/part_000` -/

/-- A response of the acquisition route: either a JSON `{error}` body with
a status, or the streamed video response with its headers. -/
inductive PostResponse where
  | jsonErr (error : String) (status : Nat)
  | stream (url : String) (contentType : String) (disposition : String)
deriving DecidableEq, Repr

/-- Result of running the `POST` handler: the response together with the
list of upstream URLs handed to the `ytdl` resolver (the network calls the
handler attempts). -/
structure AcqResult where
  response : PostResponse
  resolverCalls : List String
deriving DecidableEq, Repr

/-- The `POST` handler of `src/unnamed/part_000`.  `body` embeds
`await request.json()` restricted to the declared body shape
`{videoId: string}`: `.error` is a body that fails to parse (the thrown
error is caught and mapped to a 500), `.ok none` a body without `videoId`,
`.ok (some s)` a body with string `videoId` `s`.  A falsy `videoId` returns
the 400 early; otherwise `ytdl` is invoked on the composed watch URL. -/
def POST (body : Except String (Option String)) : AcqResult :=
  match body with
  | .error _ =>
      { response := .jsonErr "Failed to process video" 500, resolverCalls := [] }
  | .ok videoId =>
      if strFalsy videoId then
        { response := .jsonErr "Video ID is required" 400, resolverCalls := [] }
      else
        let videoUrl := "https://www.youtube.com/watch?v=" ++ videoId.getD ""
        { response := .stream videoUrl "video/mp4" "attachment; filename=\"video.mp4\"",
          resolverCalls := [videoUrl] }

/-! ## The transcode pipeline: `processVideo` of the page component

The pipeline drives an external encoding engine (ffmpeg.wasm) through two
`exec` command lists.  The command lists below are transcribed verbatim
from the source; the engine itself is an external collaborator (not code of
this repository), so its behaviour on those commands is modelled from the
specification's description of the two stages. -/

/-- The stage-1 trim command of `processVideo` (stream-copy trim,
`src/app/api/collect-videos/route.ts`). -/
def trimArgs : List String :=
  ["-i", "input.mp4",
   "-t", "30",
   "-c", "copy",
   "trimmed.mp4"]

/-- The stage-2 encode command of `processVideo` (filter + re-encode,
`src/app/api/collect-videos/route.ts`). -/
def encodeArgs : List String :=
  ["-i", "trimmed.mp4",
   "-vf", "fps=30,crop=ih*9/16:ih,scale=720:1280:force_original_aspect_ratio=decrease,pad=720:1280:(ow-iw)/2:(oh-ih)/2",
   "-c:v", "libx264",
   "-preset", "medium",
   "-crf", "22",
   "-c:a", "aac",
   "-b:a", "192k",
   "-movflags", "+faststart",
   "output.mp4"]

/-- The value following the first occurrence of a flag in a command list
(`argValue "-t" trimArgs = some "30"`). -/
def argValue (flag : String) : List String → Option String
  | [] => none
  | [_] => none
  | a :: b :: rest => if a = flag then some b else argValue flag (b :: rest)

/-- Decimal value of one digit character. -/
def digitVal (c : Char) : Option Nat :=
  if c.isDigit then some (c.toNat - 48) else none

/-- Accumulating decimal parse of a character list. -/
def parseNatAux : List Char → Nat → Option Nat
  | [], acc => some acc
  | c :: cs, acc =>
      match digitVal c with
      | some d => parseNatAux cs (acc * 10 + d)
      | none => none

/-- Decimal parse of a string, as the engine parses the `-t` duration
argument (`parseNat "30" = some 30`). -/
def parseNat (s : String) : Option Nat :=
  match s.data with
  | [] => none
  | l => parseNatAux l 0

/-- Structural description of one container-encoded media buffer: its
duration in seconds, frame dimensions, frame rate, and stream codecs.
Durations and dimensions are rationals so the filter arithmetic
(`ih*9/16`, aspect-preserving scale) is exact. -/
structure MediaInfo where
  duration : ℚ
  width : ℚ
  height : ℚ
  fps : ℚ
  vcodec : String
  acodec : String
deriving DecidableEq, Repr

/-- Modelled from the spec: the encoding engine's behaviour on a
stream-copy trim command (`-t` limit with `-c copy`).  The engine is an
external collaborator; per the spec, the trim "truncate[s] the container to
the first 30 seconds without re-encoding audio or video streams (remux
only)" and "a source shorter than 30 seconds is still valid — the trim
command yields whatever duration exists up to the limit, it never errors
for being short": output duration is the minimum of the input duration and
the limit, all other stream properties unchanged.  Returns `none` when the
command list is not a stream-copy trim of this shape. -/
def trimSemantics (args : List String) (input : MediaInfo) : Option MediaInfo :=
  match argValue "-t" args, argValue "-c" args with
  | some t, some "copy" =>
      match parseNat t with
      | some limit => some { input with duration := min input.duration (limit : ℚ) }
      | none => none
  | _, _ => none

/-- Modelled from the spec: the `fps=r` filter normalizes the frame rate to
`r` frames per second. -/
def fpsFilter (r : ℚ) (m : MediaInfo) : MediaInfo :=
  { m with fps := r }

/-- Modelled from the spec: the `crop=ih*9/16:ih` filter center-crops to
width = input height × 9/16 at full height; per the spec, "sources already
narrower than 9:16 will compute a crop wider than the source and must be
treated as a no-crop / pad-only case", so the crop width is clamped to the
input width. -/
def cropFilter (m : MediaInfo) : MediaInfo :=
  { m with width := min m.width (m.height * (9 / 16 : ℚ)) }

/-- Modelled from the spec: the
`scale=tw:th:force_original_aspect_ratio=decrease` filter scales to fit the
`tw`×`th` canvas preserving aspect ratio (no distortion), never
upscaling past the canvas: both dimensions shrink or grow by the single
factor `min (tw/w) (th/h)`. -/
def scaleDecrease (tw th : ℚ) (m : MediaInfo) : MediaInfo :=
  let s := min (tw / m.width) (th / m.height)
  { m with width := m.width * s, height := m.height * s }

/-- Modelled from the spec: the `pad=tw:th:(ow-iw)/2:(oh-ih)/2` filter
pads the frame with centered padding to exactly fill the `tw`×`th` canvas;
it fails when the incoming frame exceeds the canvas. -/
def padFilter (tw th : ℚ) (m : MediaInfo) : Option MediaInfo :=
  if m.width ≤ tw ∧ m.height ≤ th then
    some { m with width := tw, height := th }
  else
    none

/-- Modelled from the spec: the encode stage's effect on stream structure —
the stage-2 filter graph `fps=30,crop,scale,pad` applied in order, followed
by re-encoding video as `libx264` and audio as `aac` (the codecs named by
the command list). -/
def encodeSemantics (m : MediaInfo) : Option MediaInfo :=
  let m1 := fpsFilter 30 m
  let m2 := cropFilter m1
  let m3 := scaleDecrease 720 1280 m2
  (padFilter 720 1280 m3).map fun m4 =>
    { m4 with vcodec := "libx264", acodec := "aac" }

/-! ## The `processVideo` state machine -/

/-- The page component's job-relevant state: the four `useState` cells
`status`, `error`, `originalVideoUrl`, `trimmedVideoUrl`. -/
structure UiState where
  status : Option String
  error : Option String
  originalVideoUrl : Option String
  trimmedVideoUrl : Option String
deriving DecidableEq, Repr

/-- Observable steps taken by one `processVideo` invocation: the network
request to the acquisition endpoint, the working-storage write of the raw
bytes, the two engine commands, the read-back of the encoded output, and
the publication of the output URL. -/
inductive Event where
  | fetchAcquisition (videoId : String)
  | writeInput
  | execTrim (args : List String)
  | execEncode (args : List String)
  | readOutput
  | setTrimmedUrl (url : String)
deriving DecidableEq, Repr

/-- Outcome oracle for one `processVideo` invocation: whether the encoding
engine has finished loading (`ffmpegRef.current` non-null), whether each
awaited step succeeds or throws (a thrown/rejected step transfers control
to the `catch` block), and the object URLs `URL.createObjectURL` mints for
the two blobs. -/
structure Env where
  ffmpegLoaded : Bool
  fetchOk : Bool
  writeOk : Bool
  trimOk : Bool
  encodeOk : Bool
  readOk : Bool
  originalUrl : String
  trimmedUrl : String
deriving DecidableEq, Repr

/-- The `catch` block of `processVideo`: record the failure message, clear
the status, leave every other state cell untouched. -/
def catchFail (s : UiState) : UiState :=
  { s with error := some "Failed to process video", status := none }

/-- The `processVideo` function of the page component, as a state
transformer returning the final state and the trace of observable steps.
The guard `if (!ffmpegRef.current || !video.id?.videoId) return;` yields an
unchanged state and an empty trace; otherwise the stages run strictly in
source order, each awaited step's failure jumping to the `catch` block. -/
def processVideo (env : Env) (video : YouTubeVideoItem) (s0 : UiState) :
    UiState × List Event :=
  if env.ffmpegLoaded = false ∨ strFalsy (itemVideoId video) then
    (s0, [])
  else
    let vid := (itemVideoId video).getD ""
    let s1 := { s0 with status := some "Processing video...", error := none }
    let s2 := { s1 with status := some "Downloading video..." }
    let t1 := [Event.fetchAcquisition vid]
    if env.fetchOk = false then (catchFail s2, t1)
    else
      let s3 := { s2 with originalVideoUrl := some env.originalUrl }
      let s4 := { s3 with status := some "Trimming video..." }
      let t2 := t1 ++ [Event.writeInput]
      if env.writeOk = false then (catchFail s4, t2)
      else
        let t3 := t2 ++ [Event.execTrim trimArgs]
        if env.trimOk = false then (catchFail s4, t3)
        else
          let t4 := t3 ++ [Event.execEncode encodeArgs]
          if env.encodeOk = false then (catchFail s4, t4)
          else
            let t5 := t4 ++ [Event.readOutput]
            if env.readOk = false then (catchFail s4, t5)
            else
              let s5 := { s4 with trimmedVideoUrl := some env.trimmedUrl,
                                  status := some "Ready!" }
              (s5, t5 ++ [Event.setTrimmedUrl env.trimmedUrl])

/-! ## Working storage across invocations

`ffmpegRef` holds one engine instance for the lifetime of the page, so all
`processVideo` invocations share one virtual filesystem and the fixed file
names `input.mp4`, `trimmed.mp4`, `output.mp4`.  The filesystem is modelled
as an association list from file name to an abstract content tag;
`writeFile` overwrites unconditionally, while an engine command follows
ffmpeg's documented default for its output file: without the `-y` flag an
already-existing output file is not overwritten and the command fails
(non-interactive runs answer the overwrite prompt negatively). -/

/-- Working storage: file name ↦ abstract content tag, later writes
shadowing earlier ones. -/
def FS := List (String × Nat)

/-- Content of a file in working storage, if present. -/
def fsLookup (fs : FS) (name : String) : Option Nat :=
  List.lookup name fs

/-- An unconditional overwrite, as performed by `ffmpeg.writeFile`. -/
def fsWrite (name : String) (content : Nat) (fs : FS) : FS :=
  (name, content) :: fs

/-- One engine command run against working storage: the input file (the
`-i` value) must exist, and the output file (the final argument) must not
already exist unless the command carries `-y`; on success the output file
is written with the given content tag.  The trim and encode commands of
`processVideo` both have this `-i ... OUTPUT` shape.  The overwrite refusal
is ffmpeg's documented default behaviour, modelled here because the engine
is external to the repository. -/
def execOnFS (fs : FS) (args : List String) (produced : Nat) : FS × Bool :=
  match argValue "-i" args, args.getLast? with
  | some inputFile, some outputFile =>
      if (fsLookup fs inputFile).isNone then (fs, false)
      else if (fsLookup fs outputFile).isSome && !(args.contains "-y") then (fs, false)
      else (fsWrite outputFile produced fs, true)
  | _, _ => (fs, false)

/-- One `processVideo` invocation viewed at the working-storage level:
write the raw bytes to `input.mp4`, run the trim command, then (if the trim
command succeeded) the encode command, then (if that succeeded) read back
`output.mp4`.  Returns the storage left behind and the content the job
published, `none` when a stage failed. -/
def runJobFS (fs : FS) (raw trimmedContent encodedContent : Nat) :
    FS × Option Nat :=
  let fs1 := fsWrite "input.mp4" raw fs
  match execOnFS fs1 trimArgs trimmedContent with
  | (fs2, false) => (fs2, none)
  | (fs2, true) =>
      match execOnFS fs2 encodeArgs encodedContent with
      | (fs3, false) => (fs3, none)
      | (fs3, true) => (fs3, fsLookup fs3 "output.mp4")

/-! ## Concrete sample inputs used by witnesses -/

/-- A 45-second landscape 1080p source, as in the spec's end-to-end
scenario. -/
def sample45 : MediaInfo :=
  { duration := 45, width := 1920, height := 1080, fps := 30,
    vcodec := "h264", acodec := "aac" }

/-! ## Claim theorems -/

/-- Claim C1: the trim stage invokes a stream-copy trim with a hard
30-second duration limit and no re-encoding; every input longer than 30
seconds yields output duration exactly 30 seconds, every shorter input
yields its own duration, and the trim never errors merely because the
source is shorter than 30 seconds. -/
theorem trim_stage_duration_policy (m : MediaInfo) :
    ∃ out, trimSemantics trimArgs m = some out
      ∧ (30 < m.duration → out.duration = 30)
      ∧ (m.duration ≤ 30 → out.duration = m.duration)
      ∧ out.vcodec = m.vcodec ∧ out.acodec = m.acodec
      ∧ out.width = m.width ∧ out.height = m.height ∧ out.fps = m.fps := by
  refine ⟨{ m with duration := min m.duration 30 }, rfl, ?_, ?_, rfl, rfl, rfl, rfl, rfl⟩
  · intro h
    simp [min_eq_right h.le]
  · intro h
    simp [min_eq_left h]

/-- The trim policy evaluated on the 45-second sample: the output exists
and lasts exactly 30 seconds. -/
theorem trim_stage_duration_policy_witness :
    ∃ out, trimSemantics trimArgs sample45 = some out ∧ out.duration = 30 := by
  obtain ⟨out, h1, h2, -⟩ := trim_stage_duration_policy sample45
  exact ⟨out, h1, h2 (by simp [sample45]; norm_num)⟩

/-- Claim C2: the encode stage's command carries exactly the fixed policy
(fps 30, center crop to height × 9/16, aspect-preserving scale with
centered padding to 720×1280, libx264 at constant quality crf 22 preset
medium, aac audio at 192k, faststart layout), and for every input with
positive dimensions the modelled output is exactly 720×1280 at 30 fps. -/
theorem encode_stage_fixed_policy (m : MediaInfo)
    (hw : 0 < m.width) (hh : 0 < m.height) :
    argValue "-vf" encodeArgs =
        some "fps=30,crop=ih*9/16:ih,scale=720:1280:force_original_aspect_ratio=decrease,pad=720:1280:(ow-iw)/2:(oh-ih)/2"
    ∧ argValue "-c:v" encodeArgs = some "libx264"
    ∧ argValue "-preset" encodeArgs = some "medium"
    ∧ argValue "-crf" encodeArgs = some "22"
    ∧ argValue "-c:a" encodeArgs = some "aac"
    ∧ argValue "-b:a" encodeArgs = some "192k"
    ∧ argValue "-movflags" encodeArgs = some "+faststart"
    ∧ ∃ out, encodeSemantics m = some out
        ∧ out.width = 720 ∧ out.height = 1280 ∧ out.fps = 30
        ∧ out.vcodec = "libx264" ∧ out.acodec = "aac" := by
  refine ⟨rfl, rfl, rfl, rfl, rfl, rfl, rfl, ?_⟩
  have hw9 : (0 : ℚ) < m.height * (9 / 16) := by positivity
  have hw2pos : 0 < min m.width (m.height * (9 / 16)) := lt_min hw hw9
  have hw2ne : min m.width (m.height * (9 / 16)) ≠ 0 := ne_of_gt hw2pos
  have hhne : m.height ≠ 0 := ne_of_gt hh
  have h1 : min m.width (m.height * (9 / 16)) *
      min (720 / min m.width (m.height * (9 / 16))) (1280 / m.height) ≤ 720 := by
    calc min m.width (m.height * (9 / 16)) *
          min (720 / min m.width (m.height * (9 / 16))) (1280 / m.height)
        ≤ min m.width (m.height * (9 / 16)) *
          (720 / min m.width (m.height * (9 / 16))) :=
          mul_le_mul_of_nonneg_left (min_le_left _ _) hw2pos.le
      _ = 720 := by field_simp
  have h2 : m.height *
      min (720 / min m.width (m.height * (9 / 16))) (1280 / m.height) ≤ 1280 := by
    calc m.height *
          min (720 / min m.width (m.height * (9 / 16))) (1280 / m.height)
        ≤ m.height * (1280 / m.height) :=
          mul_le_mul_of_nonneg_left (min_le_right _ _) hh.le
      _ = 1280 := by field_simp
  refine ⟨{ duration := m.duration, width := 720, height := 1280, fps := 30,
            vcodec := "libx264", acodec := "aac" }, ?_, rfl, rfl, rfl, rfl, rfl⟩
  simp only [encodeSemantics, fpsFilter, cropFilter, scaleDecrease, padFilter]
  rw [if_pos ⟨h1, h2⟩]
  rfl

/-- The encode policy evaluated on the 45-second 1920×1080 sample. -/
theorem encode_stage_fixed_policy_witness :
    argValue "-c:v" encodeArgs = some "libx264"
    ∧ ∃ out, encodeSemantics sample45 = some out
        ∧ out.width = 720 ∧ out.height = 1280 ∧ out.fps = 30
        ∧ out.vcodec = "libx264" ∧ out.acodec = "aac" := by
  obtain ⟨-, h2, -, -, -, -, -, h8⟩ :=
    encode_stage_fixed_policy sample45 (by simp [sample45]) (by simp [sample45])
  exact ⟨h2, h8⟩

/-- A stub video item carrying a numbered identifier. -/
def stubItem (n : Nat) : YouTubeVideoItem :=
  { id := some { videoId := some (toString n) }, snippet := none }

/-- Fifty stub items, as in the spec's sampling scenario. -/
def stubItems50 : List YouTubeVideoItem :=
  (List.range 50).map stubItem

/-- A stub item whose identifier records the query it was produced for. -/
def echoItem (q : String) : YouTubeVideoItem :=
  { id := some { videoId := some q }, snippet := none }

/-- A fully successful outcome oracle for `processVideo`. -/
def envOk : Env :=
  { ffmpegLoaded := true, fetchOk := true, writeOk := true, trimOk := true,
    encodeOk := true, readOk := true, originalUrl := "blob:orig",
    trimmedUrl := "blob:out" }

/-- A selectable video item with identifier `abc`. -/
def videoAbc : YouTubeVideoItem :=
  { id := some { videoId := some "abc" }, snippet := none }

/-- The page component's initial state: all four cells empty. -/
def initialState : UiState :=
  { status := none, error := none, originalVideoUrl := none,
    trimmedVideoUrl := none }

/-- Claim C3: the pipeline stages are strictly sequential — the trim
command runs only after the raw bytes were written to working storage
without error, the encode command consumes the trim command's output file
and runs only in executions where the trim step succeeded, and the output
URL changes only in executions where the encode and read-back steps
completed; the whole trace is always an initial segment of the fixed
stage order fetch, write, trim, encode, read, publish. -/
theorem pipeline_stages_sequential (env : Env) (video : YouTubeVideoItem)
    (s : UiState) :
    (Event.execTrim trimArgs ∈ (processVideo env video s).2 →
        env.writeOk = true ∧ Event.writeInput ∈ (processVideo env video s).2)
    ∧ (Event.execEncode encodeArgs ∈ (processVideo env video s).2 →
        env.trimOk = true ∧ Event.execTrim trimArgs ∈ (processVideo env video s).2)
    ∧ ((processVideo env video s).1.trimmedVideoUrl ≠ s.trimmedVideoUrl →
        env.encodeOk = true ∧ env.readOk = true
          ∧ Event.execEncode encodeArgs ∈ (processVideo env video s).2)
    ∧ argValue "-i" encodeArgs = some "trimmed.mp4"
    ∧ trimArgs.getLast? = some "trimmed.mp4"
    ∧ ∃ rest, (processVideo env video s).2 ++ rest =
        [Event.fetchAcquisition ((itemVideoId video).getD ""),
         Event.writeInput, Event.execTrim trimArgs,
         Event.execEncode encodeArgs, Event.readOutput,
         Event.setTrimmedUrl env.trimmedUrl] := by
  unfold processVideo
  split_ifs with h1 h2 h3 h4 h5 h6 <;>
    simp_all [catchFail] <;>
    first
      | exact ⟨_, rfl⟩
      | rfl
      | decide

/-- The sequencing properties evaluated on a fully successful run of the
`abc` job from the initial state: the encode command appears in the trace,
so the trim step succeeded and the trim command appears too. -/
theorem pipeline_stages_sequential_witness :
    envOk.trimOk = true
    ∧ Event.execTrim trimArgs ∈ (processVideo envOk videoAbc initialState).2 :=
  (pipeline_stages_sequential envOk videoAbc initialState).2.1 (by decide)

/-- Claim C9: failure is per-stage — when acquisition succeeded and the
raw bytes were written but the trim or the encode step then fails, the
original-video URL produced earlier remains set to this job's URL and the
error handler records the failure message without clearing it. -/
theorem original_survives_later_failure (env : Env) (video : YouTubeVideoItem)
    (s : UiState) (hld : env.ffmpegLoaded = true)
    (hvid : strFalsy (itemVideoId video) = false)
    (hfetch : env.fetchOk = true) (hwrite : env.writeOk = true)
    (hfail : env.trimOk = false ∨ env.encodeOk = false) :
    (processVideo env video s).1.originalVideoUrl = some env.originalUrl
    ∧ (processVideo env video s).1.error = some "Failed to process video" := by
  unfold processVideo
  rcases hfail with hf | hf <;>
    rcases henc : env.trimOk <;>
    simp_all [catchFail]

/-- The per-stage failure property evaluated on a run whose encode step
fails. -/
theorem original_survives_later_failure_witness :
    (processVideo { envOk with encodeOk := false } videoAbc initialState).1.originalVideoUrl
        = some "blob:orig"
    ∧ (processVideo { envOk with encodeOk := false } videoAbc initialState).1.error
        = some "Failed to process video" := by
  have h := original_survives_later_failure { envOk with encodeOk := false }
    videoAbc initialState rfl rfl rfl rfl (Or.inr rfl)
  simpa [envOk] using h

/-- Claim C10: when the encoding engine has not finished loading or the
selected item has no video identifier, `processVideo` is a silent no-op —
the trace is empty (no stage, no network request) and the state is
returned unchanged, so no error is signaled. -/
theorem guard_silent_noop (env : Env) (video : YouTubeVideoItem) (s : UiState)
    (h : env.ffmpegLoaded = false ∨ strFalsy (itemVideoId video) = true) :
    processVideo env video s = (s, []) := by
  unfold processVideo
  rw [if_pos]
  exact h

/-- The silent no-op evaluated on an item with an empty video identifier
while the engine is loaded. -/
theorem guard_silent_noop_witness :
    processVideo envOk { id := some { videoId := some "" }, snippet := none }
        initialState = (initialState, []) :=
  guard_silent_noop envOk _ initialState (Or.inr rfl)

/-- Claim C4 (failing input): a first pipeline run from empty working
storage succeeds and leaves `trimmed.mp4` and `output.mp4` behind; the
second run shares that storage (one engine instance, fixed file names),
its commands carry no `-y` overwrite flag and nothing clears the files, so
the second run's trim command is refused for its already-existing output
file and the second job fails instead of producing fresh output. -/
theorem second_job_storage_collision :
    (runJobFS [] 1 2 3).2 = some 3
    ∧ fsLookup (runJobFS [] 1 2 3).1 "trimmed.mp4" = some 2
    ∧ fsLookup (runJobFS [] 1 2 3).1 "output.mp4" = some 3
    ∧ (runJobFS (runJobFS [] 1 2 3).1 4 5 6).2 = none
    ∧ trimArgs.contains "-y" = false
    ∧ encodeArgs.contains "-y" = false := by
  refine ⟨rfl, rfl, rfl, rfl, rfl, rfl⟩

/-- Claim C5: a parsed request body whose `videoId` is missing or empty
gets the JSON `{error}` response with client-error status 400 and no
resolver call; the `ytdl` resolver is invoked only when `videoId` is a
non-empty string. -/
theorem acquisition_requires_video_id (v : Option String) :
    (strFalsy v = true →
        (POST (.ok v)).response = .jsonErr "Video ID is required" 400
        ∧ (POST (.ok v)).resolverCalls = [])
    ∧ ((POST (.ok v)).resolverCalls ≠ [] → ∃ s, v = some s ∧ s ≠ "") := by
  rcases v with - | s
  · exact ⟨fun _ => ⟨rfl, rfl⟩, fun h => absurd rfl h⟩
  · by_cases hs : s = ""
    · subst hs
      exact ⟨fun _ => ⟨rfl, rfl⟩, fun h => absurd rfl h⟩
    · constructor
      · intro h
        simp [strFalsy, hs] at h
      · exact fun _ => ⟨s, rfl, hs⟩

/-- The acquisition guard evaluated on an empty identifier: 400 response
and no network call. -/
theorem acquisition_requires_video_id_witness :
    (POST (.ok (some ""))).response = .jsonErr "Video ID is required" 400
    ∧ (POST (.ok (some ""))).resolverCalls = [] :=
  (acquisition_requires_video_id (some "")).1 rfl

/-- Claim C6: with a configured key and an upstream returning the item
list `vs`, the search route responds 200 with exactly `min 10 n` of the
`n` upstream items, each a member of `vs` — the shuffled prefix of a
permutation, not a ranked prefix. -/
theorem search_returns_ten_sampled (k : String) (hk : k ≠ "")
    (q : Option String) (vs : List YouTubeVideoItem)
    (shuffle : List YouTubeVideoItem → List YouTubeVideoItem)
    (hperm : (shuffle vs).Perm vs) :
    ∃ out, GET (some k) q (fun _ => .ok (some vs)) shuffle = .success out 200
      ∧ out.length = min 10 vs.length
      ∧ ∀ v ∈ out, v ∈ vs := by
  refine ⟨(shuffle vs).take 10, ?_, ?_, ?_⟩
  · simp [GET, strFalsy, hk]
  · rw [List.length_take, hperm.length_eq]
  · intro v hv
    exact hperm.mem_iff.mp (List.take_subset _ _ hv)

/-- The sampling property evaluated on the 50-item stub: the response
holds exactly `min 10 50 = 10` items, all drawn from the 50. -/
theorem search_returns_ten_sampled_witness :
    (∃ out, GET (some "key") (some "trending")
          (fun _ => .ok (some stubItems50)) id = .success out 200
        ∧ out.length = min 10 stubItems50.length
        ∧ ∀ v ∈ out, v ∈ stubItems50)
    ∧ min 10 stubItems50.length = 10 :=
  ⟨search_returns_ten_sampled "key" (by decide) (some "trending") stubItems50
      id (List.Perm.refl _),
    by decide⟩

/-- Claim C7: with the search credential absent, the route answers the
fixed non-empty configuration message with server-error status 500, for
every query and upstream — never a 200 success with an empty list. -/
theorem missing_credential_explicit_error (q : Option String)
    (upstream : String → Except String (Option (List YouTubeVideoItem)))
    (shuffle : List YouTubeVideoItem → List YouTubeVideoItem) :
    GET none q upstream shuffle
      = .failure "YouTube API Key is not configured on the server." none 500
    ∧ "YouTube API Key is not configured on the server." ≠ ""
    ∧ ∀ vids st, GET none q upstream shuffle ≠ .success vids st := by
  refine ⟨rfl, by decide, ?_⟩
  intro vids st h
  exact GetResponse.noConfusion h

/-- Claim C8 (counterexample): a request with an empty `q` parameter is
not signaled as an error — with a configured key it receives the same 200
success as a request with `q` absent, both built from the fallback query
`trending` (the echoing stub shows the query actually used). -/
theorem empty_query_not_error_cx :
    GET (some "key") (some "") (fun query => .ok (some [echoItem query])) id
      = .success [echoItem "trending"] 200
    ∧ GET (some "key") none (fun query => .ok (some [echoItem query])) id
      = .success [echoItem "trending"] 200 :=
  ⟨rfl, rfl⟩

/-- Claim C8 (amended): a search request with `q` empty is treated exactly
like one with `q` absent — both use the platform-defined fallback term
`trending`, and no error is signaled for the query. -/
theorem query_fallback_amended (q : Option String)
    (hq : q = none ∨ q = some "") (apiKey : Option String)
    (upstream : String → Except String (Option (List YouTubeVideoItem)))
    (shuffle : List YouTubeVideoItem → List YouTubeVideoItem) :
    searchQueryOf q = "trending"
    ∧ GET apiKey q upstream shuffle = GET apiKey none upstream shuffle := by
  rcases hq with rfl | rfl
  · exact ⟨rfl, rfl⟩
  · exact ⟨rfl, rfl⟩

/-- The amended fallback behaviour evaluated on an empty `q` with a
configured key and the echoing stub. -/
theorem query_fallback_amended_witness :
    searchQueryOf (some "") = "trending"
    ∧ GET (some "key") (some "") (fun query => .ok (some [echoItem query])) id
      = GET (some "key") none (fun query => .ok (some [echoItem query])) id :=
  query_fallback_amended (some "") (Or.inr rfl) (some "key")
    (fun query => .ok (some [echoItem query])) id

end YoutubeClipper
